import Mathlib

/-!
# Verification of the Temalith cache-aside subsystem

A shallow embedding of the cache-aside layer of the Temalith server
(`src/server.js` and the second snapshot `src/unnamed/part_000`): cache-key
derivation, the per-domain fetch-and-store functions, the HTTP handlers that
implement the cache-aside read path, and the news preload sweeper.

Modelling conventions:
* A JS string is modelled by Lean's `String`; `toLowerCase`/`toUpperCase`
  are modelled on the basic-latin range by `Char.toLower`/`Char.toUpper`
  mapped over the character list (`jsLower`/`jsUpper`).
* The Redis store is an association list of `(key, value, ttlSeconds)`
  entries, newest first; `SET key value EX ttl` conses a new entry and
  `GET` returns the newest entry for the key, which models overwrite.
* `await`ed effects are explicit state passing on `SysState`; a thrown JS
  exception is an `Except.error` carrying the message; a `try/catch` is a
  `match` on that `Except`.  A function that cannot raise is a total Lean
  function into `SysState`.
* Each upstream HTTP call is recorded in `SysState.fetchLog`, so "the
  fetcher is invoked exactly once" is a statement about that log.
* `JSON.stringify`/`JSON.parse` of the opaque provider payloads are
  parameters `stringify : Data → String` and `parse : String → Option Data`
  (a `JSON.parse` exception is `none`).
-/

namespace Temalith

/-- JS `s.toLowerCase()` on the basic-latin range: lower-case every character. -/
def jsLower (s : String) : String := ⟨s.data.map Char.toLower⟩

/-- JS `s.toUpperCase()` on the basic-latin range: upper-case every character. -/
def jsUpper (s : String) : String := ⟨s.data.map Char.toUpper⟩

/-- Two strings differ only in letter case: they lower-case to the same string. -/
def eqUpToCase (s t : String) : Prop := jsLower s = jsLower t

instance (s t : String) : Decidable (eqUpToCase s t) := by
  unfold eqUpToCase; infer_instance

/-! ## Cache-key derivation (src/server.js 68, 109, 159; src/unnamed/part_000 35) -/

/-- Embeds `rediswea` (src/server.js line 68): weather key, city lower-cased. -/
def rediswea (city : String) : String := "weather:" ++ jsLower city

/-- Embeds `redisForecastKey` (src/server.js line 109): forecast key, city lower-cased. -/
def redisForecastKey (city : String) : String := "forecast:" ++ jsLower city

/-- Embeds `redisStockKey` (src/unnamed/part_000 line 35): stock key, symbol upper-cased. -/
def redisStockKey (symbol : String) : String := "stock:" ++ jsUpper symbol

/-- Embeds `redisKey` (src/server.js line 159): news key; country and category
are embedded verbatim, with no case normalization. -/
def redisKey (country category : String) : String :=
  "gnews:" ++ country ++ ":" ++ category

/-! ## The Redis store and the effect state -/

/-- The key-value store: entries `(key, value, ttlSeconds)`, newest first.
`SET ... EX ttl` conses; `GET` takes the newest entry for the key. -/
structure Store where
  entries : List (String × String × Nat)
deriving DecidableEq

/-- Models `cli.get key`: the newest value stored under `key`, or `none` (JS `null`). -/
def Store.get (store : Store) (k : String) : Option String :=
  (store.entries.find? (fun e => e.1 == k)).map (fun e => e.2.1)

/-- Models `cli.set key value (EX ttl)`. -/
def Store.set (store : Store) (k v : String) (ttl : Nat) : Store :=
  ⟨(k, v, ttl) :: store.entries⟩

/-- A console message emitted by the news code (the only console output the
sweep report claims are about). -/
inductive ConsoleMsg where
  | stored (country category : String)
  | failed (country category msg : String)
deriving DecidableEq

/-- The observable effect state threaded through the embedded functions. -/
structure SysState where
  store : Store
  /-- One entry per upstream HTTP request issued, in order. -/
  fetchLog : List String
  console : List ConsoleMsg
deriving DecidableEq

/-- The state with an empty store and no recorded effects. -/
def initState : SysState := { store := ⟨[]⟩, fetchLog := [], console := [] }

/-- JS truthiness of `cli.get`'s result: `null` and `""` are falsy. -/
def jsTruthy : Option String → Bool
  | none => false
  | some s => !(s == "")

/-- An HTTP response: `res.json(body)` or `res.status(code).json(error)`. -/
inductive Resp (α : Type) where
  | ok (body : α)
  | err (status : Nat) (message : String)
deriving DecidableEq

/-- The message of the exception `JSON.parse` throws on corrupt input
(surfaced as `err.message` by the handlers' catch blocks). -/
def jsonParseErrorMsg : String := "Unexpected token in JSON"

/-! ## Stock domain (src/unnamed/part_000 lines 35-81) -/

/-- One entry of Tiingo's daily price series; its `close` field may be
null/absent (`none`). Prices are modelled as integers of an abstract unit. -/
structure PriceEntry where
  close : Option Int
deriving DecidableEq

/-- Models `JSON.stringify` of the scalar price (`null` stringifies to `"null"`). -/
def stringifyPrice : Option Int → String
  | none => "null"
  | some n => toString n

/-- Models `JSON.parse` of a cached scalar price; `none` means the parse threw. -/
def parsePrice (s : String) : Option (Option Int) :=
  if s == "null" then some none
  else (String.toInt? s).map some

/-- Models `response.data[0]?.close ?? null` (src/unnamed/part_000 line 46): the
close of the first — most recent — entry of the series, or null. -/
def headClose : List PriceEntry → Option Int
  | [] => none
  | e :: _ => e.close

/-- Embeds `fetchAndStoreStock` (src/unnamed/part_000 lines 38-53).
`upstream symbol` is the awaited `axios.get` of the Tiingo daily price
endpoint: `.error` models a thrown transport/non-2xx error, `.ok` the
response's data array.  On success the extracted price is stored under
`redisStockKey symbol` with `EX: 3 * 60 * 60` and returned. -/
def fetchAndStoreStock (upstream : String → Except String (List PriceEntry))
    (symbol : String) (st : SysState) : Except String (Option Int) × SysState :=
  let st1 : SysState := { st with fetchLog := st.fetchLog ++ ["tiingo daily " ++ symbol] }
  match upstream symbol with
  | .error e => (.error e, st1)
  | .ok series =>
      let lastPrice := headClose series
      (.ok lastPrice,
        { st1 with
          store := st1.store.set (redisStockKey symbol) (stringifyPrice lastPrice)
            (3 * 60 * 60) })

/-- The fixed symbol set of the `/api/stocks` handler (src/unnamed/part_000 line 58). -/
def SYMBOLS : List String := ["AAPL", "TSLA", "MSFT", "GOOGL", "NVDA"]

/-- One symbol's resolution inside the `/api/stocks` handler
(src/unnamed/part_000 lines 60-71): cache-hit check, else fetch-and-store.
A corrupt cached value makes `JSON.parse` throw, i.e. the task rejects. -/
def resolveStock (upstream : String → Except String (List PriceEntry))
    (symbol : String) (st : SysState) : Except String (Option Int) × SysState :=
  match st.store.get (redisStockKey symbol) with
  | some cached =>
      if cached == "" then fetchAndStoreStock upstream symbol st
      else
        match parsePrice cached with
        | some p => (.ok p, st)
        | none => (.error jsonParseErrorMsg, st)
  | none => fetchAndStoreStock upstream symbol st

def exceptIsError : Except String (Option Int) → Bool
  | .error _ => true
  | .ok _ => false

/-- The per-symbol resolution loop of the `/api/stocks` handler: resolves
each symbol in order, accumulating the symbol/result pairs. -/
def stocksFold (upstream : String → Except String (List PriceEntry))
    (l : List String) (acc : List (String × Except String (Option Int)) × SysState) :
    List (String × Except String (Option Int)) × SysState :=
  l.foldl
    (fun acc symbol =>
      let step := resolveStock upstream symbol acc.2
      (acc.1 ++ [(symbol, step.1)], step.2))
    acc

/-- Embeds the `/api/stocks` handler (src/unnamed/part_000 lines 56-81).
`Promise.all` over the five symbols is modelled as left-to-right sequential
execution; this is response-faithful because each task reads and writes only
its own symbol's key.  If any task rejects, the catch returns the generic
500 error and no prices; otherwise the symbol-to-price map is returned. -/
def stocksHandler (upstream : String → Except String (List PriceEntry))
    (st : SysState) : Resp (List (String × Option Int)) × SysState :=
  let folded := stocksFold upstream SYMBOLS ([], st)
  if (folded.1.map Prod.snd).any exceptIsError then
    (.err 500 "ERROR: Failed to fetch stocks", folded.2)
  else
    (.ok (folded.1.filterMap fun p =>
      match p.2 with
      | .ok v => some (p.1, v)
      | .error _ => none), folded.2)

/-! ## Weather domain (src/server.js lines 68-105, identical in part_000) -/

section WeatherForecastNews

variable {Data : Type}

/-- Embeds `fetchAndStoreWeather` (src/server.js lines 70-83).
`upstream city` is the awaited `fetch` + `response.json()` of the current
weather endpoint; a non-ok status throws before anything is stored.  On
success the payload is stored under `rediswea city` with `EX: 60 * 60`. -/
def fetchAndStoreWeather (stringify : Data → String)
    (upstream : String → Except String Data) (city : String) (st : SysState) :
    Except String Data × SysState :=
  let st1 : SysState := { st with fetchLog := st.fetchLog ++ ["weather " ++ city] }
  match upstream city with
  | .error e => (.error e, st1)
  | .ok data =>
      (.ok data,
        { st1 with store := st1.store.set (rediswea city) (stringify data) (60 * 60) })

/-- Embeds the `/api/weather/:city` handler (src/server.js lines 86-105):
`if (cached)` serves the deserialized cached value (a `JSON.parse` exception
is caught as a 500); otherwise it fetches, stores and returns fresh data,
with a thrown fetch error caught as a 500 carrying `err.message`. -/
def weatherHandler (stringify : Data → String) (parse : String → Option Data)
    (upstream : String → Except String Data) (city : String) (st : SysState) :
    Resp Data × SysState :=
  match st.store.get (rediswea city) with
  | some cached =>
      if cached == "" then
        match fetchAndStoreWeather stringify upstream city st with
        | (.ok d, st') => (Resp.ok d, st')
        | (.error e, st') => (Resp.err 500 e, st')
      else
        match parse cached with
        | some d => (.ok d, st)
        | none => (.err 500 jsonParseErrorMsg, st)
  | none =>
      match fetchAndStoreWeather stringify upstream city st with
      | (.ok d, st') => (Resp.ok d, st')
      | (.error e, st') => (Resp.err 500 e, st')

/-! ## Forecast domain: the two source snapshots (src/server.js lines 112-125
with `EX: 60 * 60`; src/unnamed/part_000 lines 163-176 with `EX: 6 * 60 * 60`) -/

namespace ServerJs

/-- Embeds `fetchAndStoreForecast` of src/server.js (lines 112-125): stores
the forecast payload under `redisForecastKey city` with `EX: 60 * 60`. -/
def fetchAndStoreForecast (stringify : Data → String)
    (upstream : String → Except String Data) (city : String) (st : SysState) :
    Except String Data × SysState :=
  let st1 : SysState := { st with fetchLog := st.fetchLog ++ ["forecast " ++ city] }
  match upstream city with
  | .error e => (.error e, st1)
  | .ok data =>
      (.ok data,
        { st1 with
          store := st1.store.set (redisForecastKey city) (stringify data) (60 * 60) })

end ServerJs

namespace Part000

/-- Embeds `fetchAndStoreForecast` of src/unnamed/part_000 (lines 163-176):
same endpoint and key scheme, but stores with `EX: 6 * 60 * 60`. -/
def fetchAndStoreForecast (stringify : Data → String)
    (upstream : String → Except String Data) (city : String) (st : SysState) :
    Except String Data × SysState :=
  let st1 : SysState := { st with fetchLog := st.fetchLog ++ ["forecast " ++ city] }
  match upstream city with
  | .error e => (.error e, st1)
  | .ok data =>
      (.ok data,
        { st1 with
          store := st1.store.set (redisForecastKey city) (stringify data) (6 * 60 * 60) })

end Part000

/-- Spec-side definition for the refinement comparison: the forecast
fetch-and-store behaviour the spec describes as "identical except for the
stored TTL", with the TTL a parameter. -/
def forecastCommon (ttlSeconds : Nat) (stringify : Data → String)
    (upstream : String → Except String Data) (city : String) (st : SysState) :
    Except String Data × SysState :=
  let st1 : SysState := { st with fetchLog := st.fetchLog ++ ["forecast " ++ city] }
  match upstream city with
  | .error e => (.error e, st1)
  | .ok data =>
      (.ok data,
        { st1 with
          store := st1.store.set (redisForecastKey city) (stringify data) ttlSeconds })

/-! ## News domain and the preload sweeper (src/server.js lines 154-211) -/

/-- Embeds `countries` (src/server.js line 155). -/
def countries : List String := ["us", "sg", "in"]

/-- Embeds `categories` (src/server.js line 156). -/
def categories : List String := ["general", "nation", "business", "technology", "entertainment"]

/-- The identifier the news code uses for one combination (its log format). -/
def newsFetchId (country category : String) : String := country ++ "-" ++ category

/-- Embeds `fetchAndStoreNews` (src/server.js lines 162-170): fetches top
headlines for the combination — always, with no cache-hit short-circuit —
stores the payload under `redisKey country category` with
`EX: 60 * 60 * 6`, logs the success and returns the payload.  A non-ok
response throws before anything is stored or logged. -/
def fetchAndStoreNews (stringify : Data → String)
    (upstream : String → String → Except String Data)
    (country category : String) (st : SysState) : Except String Data × SysState :=
  let st1 : SysState := { st with fetchLog := st.fetchLog ++ [newsFetchId country category] }
  match upstream country category with
  | .error e => (.error e, st1)
  | .ok data =>
      (.ok data,
        { st1 with
          store := st1.store.set (redisKey country category) (stringify data) (60 * 60 * 6),
          console := st1.console ++ [ConsoleMsg.stored country category] })

/-- Embeds the `/api/news/:country/:category` handler (src/server.js lines
188-205): cache-hit check on the verbatim-case key, else fetch-and-store,
with thrown errors caught as a 500 carrying `err.message`. -/
def newsHandler (stringify : Data → String) (parse : String → Option Data)
    (upstream : String → String → Except String Data)
    (country category : String) (st : SysState) : Resp Data × SysState :=
  match st.store.get (redisKey country category) with
  | some cached =>
      if cached == "" then
        match fetchAndStoreNews stringify upstream country category st with
        | (.ok d, st') => (Resp.ok d, st')
        | (.error e, st') => (Resp.err 500 e, st')
      else
        match parse cached with
        | some d => (.ok d, st)
        | none => (.err 500 jsonParseErrorMsg, st)
  | none =>
      match fetchAndStoreNews stringify upstream country category st with
      | (.ok d, st') => (Resp.ok d, st')
      | (.error e, st') => (Resp.err 500 e, st')

/-- The body of `preloadAllNews`'s inner loop (src/server.js lines 177-181):
`try { await fetchAndStoreNews(...) } catch (err) { console.error(...) }` —
a failure is caught and recorded on the console, never rethrown. -/
def sweepStep (stringify : Data → String)
    (upstream : String → String → Except String Data)
    (country category : String) (st : SysState) : SysState :=
  match fetchAndStoreNews stringify upstream country category st with
  | (.ok _, st') => st'
  | (.error e, st') =>
      { st' with console := st'.console ++ [ConsoleMsg.failed country category e] }

/-- Embeds `preloadAllNews` (src/server.js lines 173-185): the outer loop
over `countries`, the inner loop over `categories`, each combination run
through the catching `sweepStep`.  The JS function returns `undefined`; the
embedding therefore returns only the effect state, and its totality is the
statement that the sweep itself never raises. -/
def preloadAllNews (stringify : Data → String)
    (upstream : String → String → Except String Data) (st : SysState) : SysState :=
  countries.foldl
    (fun st1 country =>
      categories.foldl
        (fun st2 category => sweepStep stringify upstream country category st2) st1)
    st

/-- Embeds the `/backup` handler (src/server.js lines 208-211): awaits the
sweep, then sends a fixed plain-text confirmation regardless of its outcome. -/
def backupHandler (stringify : Data → String)
    (upstream : String → String → Except String Data) (st : SysState) :
    String × SysState :=
  ("All country-category data backed up!", preloadAllNews stringify upstream st)

/-- The sweep restricted to an explicit combination list (proof scaffolding
for the fold over the concrete cartesian product). -/
def sweepList (stringify : Data → String)
    (upstream : String → String → Except String Data)
    (l : List (String × String)) (st : SysState) : SysState :=
  l.foldl (fun st1 p => sweepStep stringify upstream p.1 p.2 st1) st

/-- The deterministic order in which the sweep visits the 15 combinations:
outer loop over countries, inner loop over categories. -/
def sweepOrder : List (String × String) :=
  countries.flatMap (fun country => categories.map (fun category => (country, category)))

/-- The store entries one sweep over `l` writes, oldest first: one entry per
combination whose fetch succeeds, at the news key with `EX: 60 * 60 * 6`. -/
def sweepWrites (stringify : Data → String)
    (upstream : String → String → Except String Data)
    (l : List (String × String)) : List (String × String × Nat) :=
  l.filterMap fun p =>
    match upstream p.1 p.2 with
    | .ok d => some (redisKey p.1 p.2, stringify d, 60 * 60 * 6)
    | .error _ => none

/-- The console record one sweep over `l` produces: per combination, a
`stored` line on success or a `failed` line carrying the reason. -/
def sweepReport (upstream : String → String → Except String Data)
    (l : List (String × String)) : List ConsoleMsg :=
  l.map fun p =>
    match upstream p.1 p.2 with
    | .ok _ => ConsoleMsg.stored p.1 p.2
    | .error e => ConsoleMsg.failed p.1 p.2 e

end WeatherForecastNews

/-- Is a console message a success (`stored`) line? -/
def ConsoleMsg.isStored : ConsoleMsg → Bool
  | .stored _ _ => true
  | .failed _ _ _ => false

/-- A concrete news upstream for which exactly the combinations
`(us, nation)` and `(in, business)` fail; every other combination succeeds
with an opaque payload string. -/
def upTwoFail : String → String → Except String String := fun c g =>
  if c == "us" && g == "nation" then .error "HTTP 502"
  else if c == "in" && g == "business" then .error "HTTP 429"
  else .ok ("payload " ++ c ++ " " ++ g)

/-- A concrete news upstream for which every combination succeeds. -/
def upAllOk : String → String → Except String String := fun c g =>
  .ok ("payload " ++ c ++ " " ++ g)

/-! ## Helper lemmas on characters and case -/

/-- The map `Char.ofNat` on a valid codepoint round-trips through `toNat`. -/
theorem char_toNat_ofNat (n : Nat) (h : n.isValidChar) : (Char.ofNat n).toNat = n := by
  rw [Char.ofNat, dif_pos h]
  rfl

theorem isValidChar_of_le (n : Nat) (h : n ≤ 122) : n.isValidChar := by
  left; omega

theorem char_eq_of_toNat_eq {c c' : Char} (h : c.toNat = c'.toNat) : c = c' :=
  Char.ext (UInt32.ext h)

/-- Characters with the same lower-case image have the same upper-case image. -/
theorem toUpper_eq_of_toLower_eq (c c' : Char) (h : c.toLower = c'.toLower) :
    c.toUpper = c'.toUpper := by
  unfold Char.toLower at h
  unfold Char.toUpper
  by_cases h1 : c.toNat ≥ 65 ∧ c.toNat ≤ 90
  · rw [if_pos h1] at h
    have e1 : (Char.ofNat (c.toNat + 32)).toNat = c.toNat + 32 :=
      char_toNat_ofNat _ (isValidChar_of_le _ (by omega))
    by_cases h2 : c'.toNat ≥ 65 ∧ c'.toNat ≤ 90
    · rw [if_pos h2] at h
      have e2 : (Char.ofNat (c'.toNat + 32)).toNat = c'.toNat + 32 :=
        char_toNat_ofNat _ (isValidChar_of_le _ (by omega))
      have hn : c.toNat = c'.toNat := by
        have := congrArg Char.toNat h
        rw [e1, e2] at this; omega
      rw [char_eq_of_toNat_eq hn]
    · rw [if_neg h2] at h
      have hc' : c'.toNat = c.toNat + 32 := by
        have := congrArg Char.toNat h
        rw [e1] at this; omega
      rw [if_neg (by omega), if_pos (by omega)]
      have hsub : c'.toNat - 32 = c.toNat := by omega
      rw [hsub, Char.ofNat_toNat]
  · rw [if_neg h1] at h
    by_cases h2 : c'.toNat ≥ 65 ∧ c'.toNat ≤ 90
    · rw [if_pos h2] at h
      have e2 : (Char.ofNat (c'.toNat + 32)).toNat = c'.toNat + 32 :=
        char_toNat_ofNat _ (isValidChar_of_le _ (by omega))
      have hc : c.toNat = c'.toNat + 32 := by
        have := congrArg Char.toNat h
        rw [e2] at this; omega
      rw [if_pos (by omega), if_neg (by omega)]
      have hsub : c.toNat - 32 = c'.toNat := by omega
      rw [hsub, Char.ofNat_toNat]
    · rw [if_neg h2] at h
      rw [h]

/-- Character lists with the same lower-case image have the same upper-case image. -/
theorem map_toUpper_eq_of_map_toLower_eq :
    ∀ (l l' : List Char), l.map Char.toLower = l'.map Char.toLower →
      l.map Char.toUpper = l'.map Char.toUpper
  | [], [], _ => rfl
  | c :: l, c' :: l', h => by
      simp only [List.map_cons, List.cons.injEq] at h ⊢
      exact ⟨toUpper_eq_of_toLower_eq c c' h.1,
        map_toUpper_eq_of_map_toLower_eq l l' h.2⟩

theorem jsUpper_eq_of_jsLower_eq {s t : String} (h : jsLower s = jsLower t) :
    jsUpper s = jsUpper t := by
  unfold jsLower at h
  unfold jsUpper
  have hl : s.data.map Char.toLower = t.data.map Char.toLower := by
    have := congrArg String.data h
    simpa using this
  exact congrArg String.mk (map_toUpper_eq_of_map_toLower_eq _ _ hl)

/-! ## Claim theorems -/

/-- C1 counterexample: the news key derivation is not case-insensitive — the
country (and likewise the category) is embedded verbatim, so the upper-case
variant derives a different cache key. -/
theorem newsKey_not_case_insensitive :
    redisKey "US" "general" ≠ redisKey "us" "general" := by decide

/-- C1 (amended): key derivation is case-insensitive for the stock, weather
and forecast domains (inputs that differ only in letter case derive the same
key), but not for the news domain, whose key embeds country and category
verbatim. -/
theorem key_derivation_case_insensitivity :
    (∀ s t, eqUpToCase s t → redisStockKey s = redisStockKey t)
    ∧ (∀ s t, eqUpToCase s t → rediswea s = rediswea t)
    ∧ (∀ s t, eqUpToCase s t → redisForecastKey s = redisForecastKey t)
    ∧ ¬ (∀ c g c' g', eqUpToCase c c' → eqUpToCase g g' →
          redisKey c g = redisKey c' g') := by
  refine ⟨?_, ?_, ?_, ?_⟩
  · intro s t h
    unfold redisStockKey
    rw [jsUpper_eq_of_jsLower_eq h]
  · intro s t h
    unfold eqUpToCase at h
    unfold rediswea
    rw [h]
  · intro s t h
    unfold eqUpToCase at h
    unfold redisForecastKey
    rw [h]
  · intro h
    have h2 := h "US" "general" "us" "general" (by decide) (by decide)
    exact absurd h2 (by decide)

/-- Witness for C1's amended theorem at concrete inputs. -/
theorem key_derivation_case_insensitivity_witness :
    redisStockKey "AAPL" = redisStockKey "aapl" :=
  key_derivation_case_insensitivity.1 "AAPL" "aapl" (by decide)

/-- C2 (code bug): a successful stock fetch-and-store writes the serialized
price under `stock:AAPL`, but with a TTL of `3 * 60 * 60` = 10800 seconds
(3 hours), not the 7200 seconds (2 hours) that the claim — and the code's
own comments — state. -/
theorem stock_ttl_is_three_hours_not_two :
    (fetchAndStoreStock (fun _ => Except.ok [⟨some 17235⟩]) "AAPL" initState).2.store.entries
      = [("stock:AAPL", "17235", 10800)]
    ∧ (10800 : Nat) ≠ 7200 := by
  exact ⟨rfl, by decide⟩

/-- C7: the two snapshots' forecast fetch-and-store functions are the same
function up to the stored TTL: each equals the common behaviour
`forecastCommon` instantiated at its TTL, the src/server.js variant with
`60 * 60` = 3600 seconds (1 hour) and the src/unnamed/part_000 variant with
`6 * 60 * 60` = 21600 seconds (6 hours). -/
theorem forecast_variants_differ_only_in_ttl :
    ∀ {Data : Type} (stringify : Data → String)
      (upstream : String → Except String Data) (city : String) (st : SysState),
      ServerJs.fetchAndStoreForecast stringify upstream city st
        = forecastCommon (60 * 60) stringify upstream city st
      ∧ Part000.fetchAndStoreForecast stringify upstream city st
        = forecastCommon (6 * 60 * 60) stringify upstream city st
      ∧ (60 * 60 : Nat) = 3600 ∧ (6 * 60 * 60 : Nat) = 21600 :=
  fun _ _ _ _ => ⟨rfl, rfl, rfl, rfl⟩

/-! ### Store lemmas -/

theorem Store.get_set_self (store : Store) (k v : String) (ttl : Nat) :
    (store.set k v ttl).get k = some v := by
  simp [Store.get, Store.set, List.find?]

theorem Store.get_set_ne (store : Store) (k k' v : String) (ttl : Nat) (h : k ≠ k') :
    (store.set k' v ttl).get k = store.get k := by
  simp only [Store.get, Store.set, List.find?]
  have hbeq : (k' == k) = false := by
    simp [beq_eq_false_iff_ne]
    exact fun he => h he.symm
  simp [hbeq]

/-! ### Sweep lemmas -/

theorem sweepStep_fetchLog {Data : Type} (stringify : Data → String)
    (upstream : String → String → Except String Data) (c g : String) (st : SysState) :
    (sweepStep stringify upstream c g st).fetchLog
      = st.fetchLog ++ [newsFetchId c g] := by
  unfold sweepStep fetchAndStoreNews
  cases upstream c g <;> rfl

theorem sweepStep_store {Data : Type} (stringify : Data → String)
    (upstream : String → String → Except String Data) (c g : String) (st : SysState) :
    (sweepStep stringify upstream c g st).store.entries
      = (match upstream c g with
          | .ok d => [(redisKey c g, stringify d, 60 * 60 * 6)]
          | .error _ => []) ++ st.store.entries := by
  unfold sweepStep fetchAndStoreNews
  cases upstream c g <;> rfl

theorem sweepStep_console {Data : Type} (stringify : Data → String)
    (upstream : String → String → Except String Data) (c g : String) (st : SysState) :
    (sweepStep stringify upstream c g st).console
      = st.console
        ++ [match upstream c g with
            | .ok _ => ConsoleMsg.stored c g
            | .error e => ConsoleMsg.failed c g e] := by
  unfold sweepStep fetchAndStoreNews
  cases upstream c g <;> rfl

theorem sweepList_fetchLog {Data : Type} (stringify : Data → String)
    (upstream : String → String → Except String Data) :
    ∀ (l : List (String × String)) (st : SysState),
      (sweepList stringify upstream l st).fetchLog
        = st.fetchLog ++ l.map (fun p => newsFetchId p.1 p.2)
  | [], st => by simp [sweepList]
  | p :: l, st => by
      have h1 : sweepList stringify upstream (p :: l) st
          = sweepList stringify upstream l (sweepStep stringify upstream p.1 p.2 st) := rfl
      rw [h1, sweepList_fetchLog stringify upstream l, sweepStep_fetchLog]
      simp

theorem sweepList_store {Data : Type} (stringify : Data → String)
    (upstream : String → String → Except String Data) :
    ∀ (l : List (String × String)) (st : SysState),
      (sweepList stringify upstream l st).store.entries
        = (sweepWrites stringify upstream l).reverse ++ st.store.entries
  | [], st => by simp [sweepList, sweepWrites]
  | p :: l, st => by
      have h1 : sweepList stringify upstream (p :: l) st
          = sweepList stringify upstream l (sweepStep stringify upstream p.1 p.2 st) := rfl
      rw [h1, sweepList_store stringify upstream l, sweepStep_store]
      unfold sweepWrites
      cases hu : upstream p.1 p.2 <;> simp [hu]

theorem sweepList_console {Data : Type} (stringify : Data → String)
    (upstream : String → String → Except String Data) :
    ∀ (l : List (String × String)) (st : SysState),
      (sweepList stringify upstream l st).console
        = st.console ++ sweepReport upstream l
  | [], st => by simp [sweepList, sweepReport]
  | p :: l, st => by
      have h1 : sweepList stringify upstream (p :: l) st
          = sweepList stringify upstream l (sweepStep stringify upstream p.1 p.2 st) := rfl
      rw [h1, sweepList_console stringify upstream l, sweepStep_console]
      unfold sweepReport
      cases hu : upstream p.1 p.2 <;> simp [hu]

/-- The nested loops of `preloadAllNews` are the sweep over `sweepOrder`. -/
theorem preloadAllNews_eq_sweepList {Data : Type} (stringify : Data → String)
    (upstream : String → String → Except String Data) (st : SysState) :
    preloadAllNews stringify upstream st
      = sweepList stringify upstream sweepOrder st := rfl

/-- C3: for every behaviour of the per-combination fetcher, the sweep visits
all 15 combinations of the three countries and five categories, in the
deterministic outer-country inner-category order, issuing an upstream fetch
for each (no cache-hit short-circuit) and storing each successful payload;
failures are caught — `preloadAllNews` is a total function of the fetcher's
behaviour, so no failure pattern aborts the sweep or escapes it. -/
theorem preloadAllNews_visits_all_combinations :
    ∀ {Data : Type} (stringify : Data → String)
      (upstream : String → String → Except String Data) (st : SysState),
      (preloadAllNews stringify upstream st).fetchLog
        = st.fetchLog ++ sweepOrder.map (fun p => newsFetchId p.1 p.2)
      ∧ (preloadAllNews stringify upstream st).store.entries
        = (sweepWrites stringify upstream sweepOrder).reverse ++ st.store.entries
      ∧ sweepOrder
        = [("us", "general"), ("us", "nation"), ("us", "business"),
           ("us", "technology"), ("us", "entertainment"),
           ("sg", "general"), ("sg", "nation"), ("sg", "business"),
           ("sg", "technology"), ("sg", "entertainment"),
           ("in", "general"), ("in", "nation"), ("in", "business"),
           ("in", "technology"), ("in", "entertainment")] := by
  intro Data stringify upstream st
  refine ⟨?_, ?_, by decide⟩
  · rw [preloadAllNews_eq_sweepList, sweepList_fetchLog]
  · rw [preloadAllNews_eq_sweepList, sweepList_store]

/-- C6 counterexample: the value returned by the sweep trigger is the same
fixed confirmation text whether exactly two of the 15 combinations fail or
none do — so the sweep's return value is no report of which combinations
succeeded or failed (the two upstreams demonstrably differ on a failing
combination). -/
theorem backup_response_ignores_failures :
    (backupHandler id upTwoFail initState).1 = (backupHandler id upAllOk initState).1
    ∧ upTwoFail "us" "nation" ≠ upAllOk "us" "nation" := by
  constructor
  · rfl
  · intro h
    simp [upTwoFail, upAllOk] at h

/-- C6 (amended): `preloadAllNews` returns no report value — the JS function
returns `undefined` and `/backup` sends a fixed text — but its console
record does summarize the sweep: with the upstream failing on exactly
`(us, nation)` and `(in, business)`, the run from the initial state logs 13
`stored` successes and the 2 named failures with their reasons. -/
theorem preload_console_records_failures :
    (preloadAllNews id upTwoFail initState).console
      = [ConsoleMsg.stored "us" "general",
         ConsoleMsg.failed "us" "nation" "HTTP 502",
         ConsoleMsg.stored "us" "business",
         ConsoleMsg.stored "us" "technology",
         ConsoleMsg.stored "us" "entertainment",
         ConsoleMsg.stored "sg" "general",
         ConsoleMsg.stored "sg" "nation",
         ConsoleMsg.stored "sg" "business",
         ConsoleMsg.stored "sg" "technology",
         ConsoleMsg.stored "sg" "entertainment",
         ConsoleMsg.stored "in" "general",
         ConsoleMsg.stored "in" "nation",
         ConsoleMsg.failed "in" "business" "HTTP 429",
         ConsoleMsg.stored "in" "technology",
         ConsoleMsg.stored "in" "entertainment"]
    ∧ ((preloadAllNews id upTwoFail initState).console.countP ConsoleMsg.isStored) = 13
    ∧ ((preloadAllNews id upTwoFail initState).console.countP
        (fun m => !m.isStored)) = 2 := by
  refine ⟨by decide, by decide, by decide⟩

/-- C4: cache-aside idempotence on the weather read path.  Starting from a
store where the key is absent, with an upstream that succeeds with payload
`d` (whose serialization is non-empty, as `JSON.stringify` of a fetched
payload always is, and round-trips through `JSON.parse`), two sequential
handler calls both return `d`, and the fetch log shows exactly one upstream
invocation in total: the first call fetches and stores, the second is a pure
cache hit that leaves the state untouched. -/
theorem weather_cache_aside_idempotent {Data : Type}
    (stringify : Data → String) (parse : String → Option Data)
    (upstream : String → Except String Data) (city : String) (st : SysState) (d : Data)
    (habsent : st.store.get (rediswea city) = none)
    (hfetch : upstream city = Except.ok d)
    (hroundtrip : parse (stringify d) = some d)
    (hnonempty : stringify d ≠ "") :
    (weatherHandler stringify parse upstream city st).1 = Resp.ok d
    ∧ (weatherHandler stringify parse upstream city
        (weatherHandler stringify parse upstream city st).2).1 = Resp.ok d
    ∧ (weatherHandler stringify parse upstream city
        (weatherHandler stringify parse upstream city st).2).2
      = (weatherHandler stringify parse upstream city st).2
    ∧ (weatherHandler stringify parse upstream city
        (weatherHandler stringify parse upstream city st).2).2.fetchLog
      = st.fetchLog ++ ["weather " ++ city] := by
  have h1 : weatherHandler stringify parse upstream city st
      = (Resp.ok d,
         { st with
           fetchLog := st.fetchLog ++ ["weather " ++ city],
           store := st.store.set (rediswea city) (stringify d) (60 * 60) }) := by
    unfold weatherHandler fetchAndStoreWeather
    rw [habsent, hfetch]
  have hne : (stringify d == "") = false := by
    simp only [beq_eq_false_iff_ne, ne_eq]
    exact hnonempty
  have h2 : ∀ st' : SysState, st'.store.get (rediswea city) = some (stringify d) →
      weatherHandler stringify parse upstream city st' = (Resp.ok d, st') := by
    intro st' hget
    unfold weatherHandler
    rw [hget]
    simp [hne, hroundtrip]
  have hget1 : ((weatherHandler stringify parse upstream city st).2).store.get (rediswea city)
      = some (stringify d) := by
    rw [h1]
    exact Store.get_set_self _ _ _ _
  refine ⟨by rw [h1], ?_, ?_, ?_⟩
  · rw [h2 _ hget1]
  · rw [h2 _ hget1]
  · rw [h2 _ hget1, h1]

/-- Witness for C4 at concrete inputs: city `Singapore`, string payload
`"25"` serialized by `id` and parsed by `some`, empty initial store. -/
theorem weather_cache_aside_idempotent_witness :
    (weatherHandler id some (fun _ => Except.ok "25") "Singapore" initState).1
      = Resp.ok "25"
    ∧ (weatherHandler id some (fun _ => Except.ok "25") "Singapore"
        (weatherHandler id some (fun _ => Except.ok "25") "Singapore"
          initState).2).1 = Resp.ok "25"
    ∧ (weatherHandler id some (fun _ => Except.ok "25") "Singapore"
        (weatherHandler id some (fun _ => Except.ok "25") "Singapore"
          initState).2).2
      = (weatherHandler id some (fun _ => Except.ok "25") "Singapore"
          initState).2
    ∧ (weatherHandler id some (fun _ => Except.ok "25") "Singapore"
        (weatherHandler id some (fun _ => Except.ok "25") "Singapore"
          initState).2).2.fetchLog
      = initState.fetchLog ++ ["weather " ++ "Singapore"] :=
  weather_cache_aside_idempotent id some (fun _ => Except.ok "25")
    "Singapore" initState "25" rfl rfl rfl (by decide)

/-- C5: on a cache miss with a failing fetcher, the handler returns the 500
error carrying the fetch failure and writes nothing: the store is unchanged
and a subsequent lookup of the key still reports it absent (no negative
caching).  Shown on both read paths the claim cites: the weather handler and
the news handler. -/
theorem miss_fetch_failure_no_write {Data : Type}
    (stringify : Data → String) (parse : String → Option Data)
    (upW : String → Except String Data) (upN : String → String → Except String Data)
    (city country category : String) (st : SysState) (e eN : String)
    (hwAbsent : st.store.get (rediswea city) = none)
    (hwErr : upW city = Except.error e)
    (hnAbsent : st.store.get (redisKey country category) = none)
    (hnErr : upN country category = Except.error eN) :
    (weatherHandler stringify parse upW city st).1 = Resp.err 500 e
    ∧ (weatherHandler stringify parse upW city st).2.store = st.store
    ∧ (weatherHandler stringify parse upW city st).2.store.get (rediswea city) = none
    ∧ (newsHandler stringify parse upN country category st).1 = Resp.err 500 eN
    ∧ (newsHandler stringify parse upN country category st).2.store = st.store
    ∧ (newsHandler stringify parse upN country category st).2.store.get
        (redisKey country category) = none := by
  have hw : weatherHandler stringify parse upW city st
      = (Resp.err 500 e,
         { st with fetchLog := st.fetchLog ++ ["weather " ++ city] }) := by
    unfold weatherHandler fetchAndStoreWeather
    rw [hwAbsent, hwErr]
  have hn : newsHandler stringify parse upN country category st
      = (Resp.err 500 eN,
         { st with fetchLog := st.fetchLog ++ [newsFetchId country category] }) := by
    unfold newsHandler fetchAndStoreNews
    rw [hnAbsent, hnErr]
  rw [hw, hn]
  exact ⟨rfl, rfl, hwAbsent, rfl, rfl, hnAbsent⟩

/-- Witness for C5 at concrete inputs: empty store, both fetchers fail. -/
theorem miss_fetch_failure_no_write_witness :
    (weatherHandler id some (fun _ => Except.error "boom") "Singapore" initState).1
      = Resp.err 500 "boom"
    ∧ (weatherHandler id some (fun _ => Except.error "boom") "Singapore"
        initState).2.store = initState.store
    ∧ (weatherHandler id some (fun _ => Except.error "boom") "Singapore"
        initState).2.store.get (rediswea "Singapore") = none
    ∧ (newsHandler id some (fun _ _ => Except.error "down") "us" "general"
        initState).1 = Resp.err 500 "down"
    ∧ (newsHandler id some (fun _ _ => Except.error "down") "us" "general"
        initState).2.store = initState.store
    ∧ (newsHandler id some (fun _ _ => Except.error "down") "us" "general"
        initState).2.store.get (redisKey "us" "general") = none :=
  miss_fetch_failure_no_write id some (fun _ => Except.error "boom")
    (fun _ _ => Except.error "down") "Singapore" "us" "general" initState
    "boom" "down" rfl rfl rfl rfl

/-- C8: a non-empty cached value that fails to deserialize is fatal for the
call: the handler returns the 500 parse error, invokes no fetcher and writes
nothing — the whole effect state is untouched.  Shown on both read paths the
claim cites: the weather handler and the news handler. -/
theorem corrupt_cached_value_is_fatal {Data : Type}
    (stringify : Data → String) (parse : String → Option Data)
    (upW : String → Except String Data) (upN : String → String → Except String Data)
    (city country category : String) (st : SysState) (s sN : String)
    (hwGet : st.store.get (rediswea city) = some s)
    (hs : s ≠ "") (hp : parse s = none)
    (hnGet : st.store.get (redisKey country category) = some sN)
    (hsN : sN ≠ "") (hpN : parse sN = none) :
    (weatherHandler stringify parse upW city st).1 = Resp.err 500 jsonParseErrorMsg
    ∧ (weatherHandler stringify parse upW city st).2 = st
    ∧ (newsHandler stringify parse upN country category st).1
        = Resp.err 500 jsonParseErrorMsg
    ∧ (newsHandler stringify parse upN country category st).2 = st := by
  have hsb : (s == "") = false := by
    simp only [beq_eq_false_iff_ne, ne_eq]; exact hs
  have hsNb : (sN == "") = false := by
    simp only [beq_eq_false_iff_ne, ne_eq]; exact hsN
  have hw : weatherHandler stringify parse upW city st
      = (Resp.err 500 jsonParseErrorMsg, st) := by
    unfold weatherHandler
    rw [hwGet]
    simp [hsb, hp]
  have hn : newsHandler stringify parse upN country category st
      = (Resp.err 500 jsonParseErrorMsg, st) := by
    unfold newsHandler
    rw [hnGet]
    simp [hsNb, hpN]
  rw [hw, hn]
  exact ⟨rfl, rfl, rfl, rfl⟩

/-- Witness for C8 at concrete inputs: a store holding the non-empty,
unparseable value `corrupt` under both keys, with a parser that rejects it. -/
theorem corrupt_cached_value_is_fatal_witness :
    (weatherHandler id
        (fun v => if v == "corrupt" then none else some v)
        (fun _ => Except.ok "fresh") "Paris"
        { initState with
          store := (initState.store.set (rediswea "Paris") "corrupt" 3600).set
            (redisKey "us" "general") "corrupt" 21600 }).1
      = Resp.err 500 jsonParseErrorMsg
    ∧ (weatherHandler id
        (fun v => if v == "corrupt" then none else some v)
        (fun _ => Except.ok "fresh") "Paris"
        { initState with
          store := (initState.store.set (rediswea "Paris") "corrupt" 3600).set
            (redisKey "us" "general") "corrupt" 21600 }).2
      = { initState with
          store := (initState.store.set (rediswea "Paris") "corrupt" 3600).set
            (redisKey "us" "general") "corrupt" 21600 }
    ∧ (newsHandler id
        (fun v => if v == "corrupt" then none else some v)
        (fun _ _ => Except.ok "fresh") "us" "general"
        { initState with
          store := (initState.store.set (rediswea "Paris") "corrupt" 3600).set
            (redisKey "us" "general") "corrupt" 21600 }).1
      = Resp.err 500 jsonParseErrorMsg
    ∧ (newsHandler id
        (fun v => if v == "corrupt" then none else some v)
        (fun _ _ => Except.ok "fresh") "us" "general"
        { initState with
          store := (initState.store.set (rediswea "Paris") "corrupt" 3600).set
            (redisKey "us" "general") "corrupt" 21600 }).2
      = { initState with
          store := (initState.store.set (rediswea "Paris") "corrupt" 3600).set
            (redisKey "us" "general") "corrupt" 21600 } :=
  corrupt_cached_value_is_fatal id
    (fun v => if v == "corrupt" then none else some v)
    (fun _ => Except.ok "fresh") (fun _ _ => Except.ok "fresh")
    "Paris" "us" "general"
    { initState with
      store := (initState.store.set (rediswea "Paris") "corrupt" 3600).set
        (redisKey "us" "general") "corrupt" 21600 }
    "corrupt" "corrupt" (by decide) (by decide) (by decide)
    (by decide) (by decide) (by decide)

/-- C9: on upstream success the stock fetcher returns the close of the first
(most recent) entry of the daily price series — `none` (JS `null`), not an
error, when the series is empty or the entry has no close — and that same
value, serialized, is what is written to the store. -/
theorem fetchAndStoreStock_returns_head_close
    (upstream : String → Except String (List PriceEntry)) (symbol : String)
    (st : SysState) (series : List PriceEntry)
    (h : upstream symbol = Except.ok series) :
    (fetchAndStoreStock upstream symbol st).1 = Except.ok (headClose series)
    ∧ (fetchAndStoreStock upstream symbol st).2.store
        = st.store.set (redisStockKey symbol) (stringifyPrice (headClose series))
            (3 * 60 * 60)
    ∧ headClose ([] : List PriceEntry) = none := by
  unfold fetchAndStoreStock
  rw [h]
  exact ⟨rfl, rfl, rfl⟩

/-- Witness for C9 at a concrete input: an empty price series yields the
stored-and-returned value `none`. -/
theorem fetchAndStoreStock_returns_head_close_witness :
    (fetchAndStoreStock (fun _ => Except.ok []) "TSLA" initState).1
      = Except.ok (headClose [])
    ∧ (fetchAndStoreStock (fun _ => Except.ok []) "TSLA" initState).2.store
        = initState.store.set (redisStockKey "TSLA") (stringifyPrice (headClose []))
            (3 * 60 * 60)
    ∧ headClose ([] : List PriceEntry) = none :=
  fetchAndStoreStock_returns_head_close (fun _ => Except.ok []) "TSLA" initState [] rfl

/-! ### Stocks-handler lemmas (C10) -/

/-- Resolving one symbol never touches another key's value. -/
theorem resolveStock_get_other (upstream : String → Except String (List PriceEntry))
    (s' k : String) (st : SysState) (h : k ≠ redisStockKey s') :
    ((resolveStock upstream s' st).2).store.get k = st.store.get k := by
  unfold resolveStock fetchAndStoreStock
  repeat' split
  all_goals first
    | rfl
    | exact Store.get_set_ne _ _ _ _ _ h

/-- A cache miss with a failing upstream makes the symbol's task reject. -/
theorem resolveStock_miss_error (upstream : String → Except String (List PriceEntry))
    (s : String) (st : SysState) (e : String)
    (habsent : st.store.get (redisStockKey s) = none)
    (herr : upstream s = Except.error e) :
    resolveStock upstream s st
      = (Except.error e,
         { st with fetchLog := st.fetchLog ++ ["tiingo daily " ++ s] }) := by
  unfold resolveStock fetchAndStoreStock
  rw [habsent, herr]

theorem stocksFold_cons (upstream : String → Except String (List PriceEntry))
    (s : String) (l : List String)
    (acc : List (String × Except String (Option Int)) × SysState) :
    stocksFold upstream (s :: l) acc
      = stocksFold upstream l
          (acc.1 ++ [(s, (resolveStock upstream s acc.2).1)],
           (resolveStock upstream s acc.2).2) := rfl

/-- Once some task has rejected, the whole result set keeps a rejection. -/
theorem stocksFold_any_mono (upstream : String → Except String (List PriceEntry)) :
    ∀ (l : List String) (acc : List (String × Except String (Option Int)) × SysState),
      (acc.1.map Prod.snd).any exceptIsError = true →
      ((stocksFold upstream l acc).1.map Prod.snd).any exceptIsError = true
  | [], acc, h => h
  | s :: l, acc, h => by
      rw [stocksFold_cons]
      apply stocksFold_any_mono upstream l
      simp [h]

/-- If some still-unprocessed symbol has an absent key and a failing
upstream — and its key differs from every other listed symbol's key — then
the finished fold contains a rejection. -/
theorem stocksFold_error_of_miss (upstream : String → Except String (List PriceEntry))
    (e : String) (sym : String) :
    ∀ (l : List String) (acc : List (String × Except String (Option Int)) × SysState),
      sym ∈ l →
      (∀ s' ∈ l, s' ≠ sym → redisStockKey sym ≠ redisStockKey s') →
      acc.2.store.get (redisStockKey sym) = none →
      upstream sym = Except.error e →
      ((stocksFold upstream l acc).1.map Prod.snd).any exceptIsError = true
  | [], _, hmem, _, _, _ => by simp at hmem
  | s :: l, acc, hmem, hdist, habsent, herr => by
      by_cases hs : s = sym
      · subst hs
        rw [stocksFold_cons, resolveStock_miss_error upstream s acc.2 e habsent herr]
        apply stocksFold_any_mono
        simp [exceptIsError]
      · have hmem' : sym ∈ l := by
          cases hmem with
          | head => exact absurd rfl hs
          | tail _ h => exact h
        rw [stocksFold_cons]
        apply stocksFold_error_of_miss upstream e sym l _ hmem'
          (fun s' hs' => hdist s' (List.mem_cons_of_mem _ hs'))
        · rw [resolveStock_get_other upstream s _ acc.2
            (hdist s (List.mem_cons_self _ _) hs)]
          exact habsent
        · exact herr

/-- C10: the `/api/stocks` handler aggregates its fixed five symbols
all-or-nothing — if any one symbol's resolution misses the cache and its
upstream fetch fails, the whole request answers with the generic 500 error
and returns no prices for the symbols that succeeded. -/
theorem stocks_handler_all_or_nothing
    (upstream : String → Except String (List PriceEntry))
    (sym : String) (st : SysState) (e : String)
    (hmem : sym ∈ SYMBOLS)
    (habsent : st.store.get (redisStockKey sym) = none)
    (herr : upstream sym = Except.error e) :
    (stocksHandler upstream st).1 = Resp.err 500 "ERROR: Failed to fetch stocks" := by
  have hall : ∀ s ∈ SYMBOLS, ∀ s' ∈ SYMBOLS, s ≠ s' →
      redisStockKey s ≠ redisStockKey s' := by decide
  have hdist : ∀ s' ∈ SYMBOLS, s' ≠ sym → redisStockKey sym ≠ redisStockKey s' :=
    fun s' hs' hne => hall sym hmem s' hs' (fun h => hne h.symm)
  have hany := stocksFold_error_of_miss upstream e sym SYMBOLS ([], st)
    hmem hdist habsent herr
  unfold stocksHandler
  rw [if_pos hany]

/-- Witness for C10 at concrete inputs: empty store, an upstream that fails
for `MSFT` (and, incidentally, every other symbol). -/
theorem stocks_handler_all_or_nothing_witness :
    (stocksHandler (fun _ => Except.error "HTTP 502") initState).1
      = Resp.err 500 "ERROR: Failed to fetch stocks" :=
  stocks_handler_all_or_nothing (fun _ => Except.error "HTTP 502") "MSFT"
    initState "HTTP 502" (by decide) rfl rfl

end Temalith


